import Mathlib

/-!
Verification of the notedown conversion driver (`notedown/main.py`).

The file embeds the command-line driver shallowly: the pure helpers
(`ftdetect`, the format-resolution expressions, the precode join) become Lean
functions, and the effectful `cli` body becomes a function from parsed
arguments and an environment oracle (availability of the external tools,
failure of each pipeline step, whether stdin is a terminal) to the trace of
observable events plus an exit outcome.
-/

namespace Notedown

/-- The two format identifiers the program knows (`markdown` | `notebook`). -/
inductive Format where
  | markdown
  | notebook
  deriving DecidableEq, Repr

/-- Last index of the character `c` in `cs` (CPython `str.rfind` as used by
`os.path.splitext`), `none` when `c` does not occur. -/
def lastIndexOf (c : Char) (cs : List Char) : Option Nat :=
  cs.enum.foldl (fun acc ic => if ic.2 = c then some ic.1 else acc) (none : Option Nat)

/-- The part of a posix path after the last `/` separator; `os.path.splitext`
only looks for the extension dot inside this final component. -/
def basenamePart (cs : List Char) : List Char :=
  cs.foldl (fun acc c => if c = '/' then [] else acc ++ [c]) []

/-- `os.path.splitext(filename)[1]` on posix: the suffix of the final path
component starting at its last dot, except that when every character of the
component before that dot is itself a dot (leading-dot filenames such as
`.bashrc` or `..md`) there is no extension. -/
def splitextExt (filename : String) : String :=
  let base := basenamePart filename.toList
  match lastIndexOf '.' base with
  | none => ""
  | some k =>
      if (base.take k).any (fun c => c ≠ '.') then String.mk (base.drop k) else ""

/-- The markdown extension list of `ftdetect` (`main.py` line 212). -/
def md_exts : List String := [".md", ".markdown", ".mkd", ".mdown", ".mkdn", ".Rmd"]

/-- The notebook extension list of `ftdetect` (`main.py` line 213). -/
def nb_exts : List String := [".ipynb"]

/-- `ftdetect(filename)` of `main.py`: determine markdown or notebook from the
file extension, `none` when the extension is unrecognized. -/
def ftdetect (filename : String) : Option Format :=
  let extension := splitextExt filename
  if extension ∈ md_exts then some Format.markdown
  else if extension ∈ nb_exts then some Format.notebook
  else none

/-- The parsed argparse result of `cli`.  File arguments are kept as their
names (`none` meaning the stdin/stdout defaults); argparse restricts
`informat`/`outformat` to the two format identifiers. -/
structure Args where
  input_file : Option String := none
  output : Option String := none
  informat : Option Format := none
  outformat : Option Format := none
  reverse : Bool := false
  run : Bool := false
  strip_outputs : Bool := false
  precode : List String := []
  knit : Option String := none
  rmagic : Bool := false
  magic : Bool := true
  examples : Bool := false
  figures : Bool := false
  template : Option String := none
  deriving DecidableEq, Repr

/-- `args.input_file.name`: the given path, or `<stdin>` for the default. -/
def inputName (a : Args) : String := a.input_file.getD "<stdin>"

/-- `args.output.name`: the given path, or `<stdout>` for the default. -/
def outputName (a : Args) : String := a.output.getD "<stdout>"

/-- Lines 188-190 of `main.py`: `--reverse` overwrites both format fields. -/
def applyReverse (a : Args) : Args :=
  if a.reverse then
    { a with informat := some Format.notebook, outformat := some Format.markdown }
  else a

/-- Python `x or y or d` over the optional format values: argparse choices and
`ftdetect` results are never empty strings, so truthiness is just presence. -/
def orDefault (x y : Option Format) (d : Format) : Format :=
  match x with
  | some f => f
  | none =>
      match y with
      | some f => f
      | none => d

/-- Line 192: `informat = args.informat or ftdetect(args.input_file.name) or
'markdown'`, after the `--reverse` mutation. -/
def resolveInformat (a : Args) : Format :=
  orDefault (applyReverse a).informat (ftdetect (inputName a)) Format.markdown

/-- Line 193: `outformat = args.outformat or ftdetect(args.output.name) or
'notebook'`, after the `--reverse` mutation. -/
def resolveOutformat (a : Args) : Format :=
  orDefault (applyReverse a).outformat (ftdetect (outputName a)) Format.notebook

/-- Line 158's test `if args.knit:` — Python truthiness of the option string:
absent (`None`) and the empty string are falsy, every other string truthy. -/
def knitTruthy (a : Args) : Bool :=
  match a.knit with
  | none => false
  | some s => !s.isEmpty

/-- Lines 164-165: `--rmagic` appends the literal `%load_ext rmagic` to the
precode list before the reader table is built. -/
def finalPrecode (a : Args) : List String :=
  if a.rmagic then a.precode ++ ["%load_ext rmagic"] else a.precode

/-- Python `sep.join(xs)`: the elements in order with the separator between
consecutive elements, the empty string on an empty list. -/
def pyJoin (sep : String) : List String → String
  | [] => ""
  | [s] => s
  | s :: rest => s ++ sep ++ pyJoin sep rest

/-- Line 179: the `precode` keyword argument handed to `MarkdownReader`,
`'\n'.join(args.precode)` after the `--rmagic` append. -/
def readerPrecode (a : Args) : String :=
  pyJoin "\n" (finalPrecode a)

/-- The string the source builds at lines 26-27 as the runipy install hint
(two adjacent literals, concatenated with no space between them). -/
def runipyHint : String :=
  "You need runipy installed to run notebooks!" ++ "try `pip install runipy`"

/-- The file streams `cli` touches: the stream argparse bound to
`args.input_file`, the one bound to `args.output`, and the replacement
stream `Knitr.knit` returns. -/
inductive Handle where
  | inputH
  | outputH
  | knitH
  deriving DecidableEq, Repr

/-- Observable events of one `cli` invocation, in program order. -/
inductive Event where
  | openHandle (h : Handle)
  | closeHandle (h : Handle)
  | printExamples
  | printHelp
  | knitE
  | readE (f : Format)
  | runE
  | writeE (f : Format)
  | raiseTypeError
  deriving DecidableEq, Repr

/-- The Python-level error that escapes `cli` when a step fails.
`typeErrorStringException` is what Python 2.7 turns `raise <str>` into
(`TypeError: exceptions must be old-style classes or instances, not str`);
the raised string itself is discarded. -/
inductive PyError where
  | typeErrorStringException
  | knitError
  | readError
  | runError
  | writeError
  deriving DecidableEq, Repr

/-- How the process ends: `exit()` / normal return give status 0, an uncaught
exception gives a non-zero status. -/
inductive Outcome where
  | exitOk
  | errorExit (e : PyError)
  deriving DecidableEq, Repr

/-- The environment of one invocation: which external collaborators are
available and which pipeline steps fail, plus whether stdin is a terminal. -/
structure World where
  runipyAvailable : Bool := true
  knitFails : Bool := false
  readFails : Bool := false
  runFails : Bool := false
  writeFails : Bool := false
  stdinIsAtty : Bool := false
  deriving DecidableEq, Repr

/-- The `run(notebook)` helper (lines 21-30): importing runipy fails when it
is not installed, and the source then executes `raise(<hint string>)`.  Under
Python 2 (this file uses `print` statements) raising a `str` raises
`TypeError: exceptions must be old-style classes or instances, not str`, so
the hint string never reaches the caller.  When runipy imports, the runner
executes the notebook and may itself fail. -/
def runStepResult (w : World) : List Event × Option PyError :=
  if !w.runipyAvailable then
    ([Event.raiseTypeError], some PyError.typeErrorStringException)
  else if w.runFails then ([Event.runE], some PyError.runError)
  else ([Event.runE], none)

/-- The write step (line 204): one writer render, selected by the resolved
output format. -/
def writePhase (a : Args) (w : World) : List Event × Option PyError :=
  if w.writeFails then ([Event.writeE (resolveOutformat a)], some PyError.writeError)
  else ([Event.writeE (resolveOutformat a)], none)

/-- Lines 200-204, `with input_file as ip, args.output as op:` — read, then
optionally run, then write; the `with` statement closes `ip` (the stream that
entered the block, `knitH` when knitting replaced the input) and `op` on every
exit from the block, normal or exceptional. -/
def withBlock (a : Args) (w : World) (ip : Handle) : List Event × Outcome :=
  let closes := [Event.closeHandle ip, Event.closeHandle Handle.outputH]
  let readEvt := [Event.readE (resolveInformat a)]
  if w.readFails then (readEvt ++ closes, Outcome.errorExit PyError.readError)
  else
    match (if a.run then runStepResult w else ([], none)) with
    | (revts, some e) => (readEvt ++ revts ++ closes, Outcome.errorExit e)
    | (revts, none) =>
        match writePhase a w with
        | (wevts, some e) => (readEvt ++ revts ++ wevts ++ closes, Outcome.errorExit e)
        | (wevts, none) => (readEvt ++ revts ++ wevts ++ closes, Outcome.exitOk)

/-- The `cli` entry point as a trace semantics.  `parse_args` opens any file
named on the command line (`argparse.FileType`); `--examples` prints the usage
text and exits 0; an interactive stdin with no input file prints help and
exits 0 (a named input file is a regular file, never a terminal); then the
optional knit step runs, and on success the with-block performs the
conversion.  `Knitr.knit` itself is not under `src/`; it is modelled from the
spec (§4.6): a text-to-text transform that yields a fresh input stream and
either succeeds or fails when the external toolchain is missing or errors —
in particular it does not close the stream it was handed. -/
def cli (a : Args) (w : World) : List Event × Outcome :=
  let openEvts :=
    (match a.input_file with
     | some _ => [Event.openHandle Handle.inputH]
     | none => []) ++
    (match a.output with
     | some _ => [Event.openHandle Handle.outputH]
     | none => [])
  if a.examples then (openEvts ++ [Event.printExamples], Outcome.exitOk)
  else if a.input_file.isNone && w.stdinIsAtty then
    (openEvts ++ [Event.printHelp], Outcome.exitOk)
  else if knitTruthy a then
    if w.knitFails then (openEvts ++ [Event.knitE], Outcome.errorExit PyError.knitError)
    else
      let res := withBlock a w Handle.knitH
      (openEvts ++ [Event.knitE, Event.openHandle Handle.knitH] ++ res.1, res.2)
  else
    let res := withBlock a w Handle.inputH
    (openEvts ++ res.1, res.2)

/-- The event trace of one invocation. -/
def cliEvents (a : Args) (w : World) : List Event := (cli a w).1

/-- The exit outcome of one invocation. -/
def cliOutcome (a : Args) (w : World) : Outcome := (cli a w).2

/-- The four pipeline steps of the conversion (knit, read, run, write). -/
def isPipelineStep : Event → Bool
  | Event.knitE => true
  | Event.readE _ => true
  | Event.runE => true
  | Event.writeE _ => true
  | _ => false

/-- The pipeline steps an invocation actually performed, in order. -/
def pipelineSteps (a : Args) (w : World) : List Event :=
  (cliEvents a w).filter isPipelineStep

/-- The step sequence the spec prescribes for a completed conversion:
optional knit, one read by the resolved input format, optional run, one write
by the resolved output format. -/
def expectedSteps (a : Args) : List Event :=
  (if knitTruthy a then [Event.knitE] else []) ++
  [Event.readE (resolveInformat a)] ++
  (if a.run then [Event.runE] else []) ++
  [Event.writeE (resolveOutformat a)]

/-! Helper lemmas. -/

/-- The pipeline-step trace of the with-block, by case on the environment:
the read always happens first; the run step happens only when requested and
runipy imports; the write step happens unless an earlier step failed. -/
theorem withBlock_steps (a : Args) (w : World) (ip : Handle) :
    ((withBlock a w ip).1).filter isPipelineStep =
      if w.readFails then [Event.readE (resolveInformat a)]
      else if a.run then
        if !w.runipyAvailable then [Event.readE (resolveInformat a)]
        else if w.runFails then [Event.readE (resolveInformat a), Event.runE]
        else [Event.readE (resolveInformat a), Event.runE,
              Event.writeE (resolveOutformat a)]
      else [Event.readE (resolveInformat a), Event.writeE (resolveOutformat a)] := by
  cases hr : w.readFails <;> cases hrun : a.run <;> cases hav : w.runipyAvailable <;>
    cases hrf : w.runFails <;> cases hw : w.writeFails <;>
      simp [withBlock, runStepResult, writePhase, isPipelineStep, hr, hrun, hav, hrf, hw]

/-- The pipeline-step trace of a whole invocation: empty on the two early
exits, `knitE` alone when the knit collaborator fails, else the optional
`knitE` followed by the with-block steps. -/
theorem pipelineSteps_eq (a : Args) (w : World) :
    pipelineSteps a w =
      if a.examples then []
      else if a.input_file.isNone && w.stdinIsAtty then []
      else if knitTruthy a then
        if w.knitFails then [Event.knitE]
        else Event.knitE :: ((withBlock a w Handle.knitH).1.filter isPipelineStep)
      else (withBlock a w Handle.inputH).1.filter isPipelineStep := by
  cases hin : a.input_file <;> cases hout : a.output <;> cases hex : a.examples <;>
    cases hk : knitTruthy a <;> cases hkf : w.knitFails <;> cases hat : w.stdinIsAtty <;>
      simp [pipelineSteps, cliEvents, cli, hin, hout, hex, hk, hkf, hat,
            isPipelineStep, List.filter_append]

/-- On an environment where no step fails and runipy is available, an
invocation that reaches the conversion performs exactly the expected steps. -/
theorem steps_success (a : Args) (w : World) (hEx : a.examples = false)
    (hTty : (a.input_file.isNone && w.stdinIsAtty) = false)
    (hKf : w.knitFails = false) (hRf : w.readFails = false)
    (hAv : w.runipyAvailable = true) (hRunF : w.runFails = false) :
    pipelineSteps a w = expectedSteps a := by
  rw [pipelineSteps_eq, withBlock_steps, withBlock_steps]
  cases hk : knitTruthy a <;> cases hr : a.run <;>
    simp [expectedSteps, hEx, hTty, hKf, hRf, hAv, hRunF, hk, hr]

/-- The expected step sequence never repeats a step. -/
theorem expected_nodup (a : Args) : (expectedSteps a).Nodup := by
  cases hk : knitTruthy a <;> cases hr : a.run <;> simp [expectedSteps, hk, hr]

/-- On every environment, the steps an invocation performs are an initial
segment of the expected sequence: no step out of order, none repeated. -/
theorem steps_initial_segment (b : Args) (v : World) :
    ∃ t, expectedSteps b = pipelineSteps b v ++ t := by
  rw [pipelineSteps_eq, withBlock_steps, withBlock_steps]
  cases hex : b.examples <;>
    cases hat : b.input_file.isNone && v.stdinIsAtty <;>
      cases hk : knitTruthy b <;>
        cases hkf : v.knitFails <;>
          cases hrf : v.readFails <;>
            cases hrun : b.run <;>
              cases hav : v.runipyAvailable <;>
                cases hrunf : v.runFails <;>
                  simp [expectedSteps, hex, hat, hk, hkf, hrf, hrun, hav, hrunf]

/-- Pulling a leading string into the accumulator of the join fold. -/
theorem append_foldl_join (sep pre q : String) (qs : List String) :
    pre ++ qs.foldl (fun acc x => acc ++ sep ++ x) q =
      qs.foldl (fun acc x => acc ++ sep ++ x) (pre ++ q) := by
  induction qs generalizing q with
  | nil => rfl
  | cons r rs ih =>
      rw [List.foldl_cons, List.foldl_cons, ih]
      congr 1
      simp [String.append_assoc]

/-- `pyJoin` on a nonempty list is a left fold that puts the separator
between consecutive elements. -/
theorem pyJoin_foldl (sep p : String) (ps : List String) :
    pyJoin sep (p :: ps) = ps.foldl (fun acc q => acc ++ sep ++ q) p := by
  induction ps generalizing p with
  | nil => rfl
  | cons q qs ih =>
      show p ++ sep ++ pyJoin sep (q :: qs) = _
      rw [ih, List.foldl_cons]
      exact append_foldl_join sep (p ++ sep) q qs

/-! Claims. -/

/-- C1: without `--reverse`, the input format is the explicit `--from` value
if given, else `ftdetect` on the input filename when that yields a format,
else `markdown`; independently the output format is the explicit `--to` value
if given, else `ftdetect` on the output filename when that yields a format,
else `notebook`. -/
theorem C1_default_format_resolution (a : Args) (f g : Format)
    (hRev : a.reverse = false) :
    (a.informat = some f → resolveInformat a = f) ∧
    (a.informat = none → ftdetect (inputName a) = some f → resolveInformat a = f) ∧
    (a.informat = none → ftdetect (inputName a) = none →
      resolveInformat a = Format.markdown) ∧
    (a.outformat = some g → resolveOutformat a = g) ∧
    (a.outformat = none → ftdetect (outputName a) = some g → resolveOutformat a = g) ∧
    (a.outformat = none → ftdetect (outputName a) = none →
      resolveOutformat a = Format.notebook) := by
  refine ⟨fun h => ?_, fun h h2 => ?_, fun h h2 => ?_,
          fun h => ?_, fun h h2 => ?_, fun h h2 => ?_⟩ <;>
    simp_all [resolveInformat, resolveOutformat, applyReverse, orDefault]

/-- C1 witness: `doc.md` as input with no flags resolves to markdown input
and notebook output. -/
theorem C1_witness :
    resolveInformat { input_file := some "doc.md" } = Format.markdown ∧
    resolveOutformat { input_file := some "doc.md" } = Format.notebook := by
  have h := C1_default_format_resolution { input_file := some "doc.md" }
    Format.markdown Format.notebook rfl
  exact ⟨h.2.1 rfl (by decide), h.2.2.2.2.2 rfl (by decide)⟩

/-- C2: `ftdetect` returns markdown exactly on the six markdown extensions,
notebook exactly on `.ipynb`, and `none` on every other or absent extension,
where the extension is the one `os.path.splitext` computes. -/
theorem C2_ftdetect_extension_map (fn : String) :
    (ftdetect fn = some Format.markdown ↔ splitextExt fn ∈ md_exts) ∧
    (ftdetect fn = some Format.notebook ↔ splitextExt fn ∈ nb_exts) ∧
    (ftdetect fn = none ↔ splitextExt fn ∉ md_exts ∧ splitextExt fn ∉ nb_exts) := by
  by_cases h1 : splitextExt fn ∈ md_exts <;> by_cases h2 : splitextExt fn ∈ nb_exts
  · exfalso
    simp only [nb_exts, List.mem_singleton] at h2
    rw [h2] at h1
    exact absurd h1 (by decide)
  all_goals simp [ftdetect, h1, h2]

/-- C3 counterexample: for `notes.ipynb` as input with no `--to` and an
output filename resolving no format, the input resolves to notebook but the
output format is notebook, not markdown as the claim states. -/
theorem C3_counterexample :
    resolveInformat { input_file := some "notes.ipynb" } = Format.notebook ∧
    ({ input_file := some "notes.ipynb" } : Args).outformat = none ∧
    ftdetect (outputName { input_file := some "notes.ipynb" }) = none ∧
    resolveOutformat { input_file := some "notes.ipynb" } ≠ Format.markdown := by
  decide

/-- C3 amended: when no explicit `--to` is given, `--reverse` is unset, and
the output filename resolves no format, the output format is `notebook`
regardless of the resolved input format. -/
theorem C3_output_default_notebook (a : Args)
    (hRev : a.reverse = false) (hTo : a.outformat = none)
    (hDet : ftdetect (outputName a) = none) :
    resolveOutformat a = Format.notebook := by
  simp [resolveOutformat, applyReverse, hRev, orDefault, hTo, hDet]

/-- C3 witness: converting `notes.ipynb` to stdout with no `--to` produces
notebook-format output. -/
theorem C3_witness :
    resolveOutformat { input_file := some "notes.ipynb" } = Format.notebook :=
  C3_output_default_notebook { input_file := some "notes.ipynb" } rfl rfl (by decide)

/-- C4: with `--reverse` set, the resolved input format is notebook and the
resolved output format is markdown, whatever the explicit flags and the
filenames say. -/
theorem C4_reverse_forces_formats (a : Args) (hRev : a.reverse = true) :
    resolveInformat a = Format.notebook ∧ resolveOutformat a = Format.markdown := by
  simp [resolveInformat, resolveOutformat, applyReverse, hRev, orDefault]

/-- C4 witness: `--reverse` overrides contrary explicit flags and a markdown
input extension. -/
theorem C4_witness :
    resolveInformat { input_file := some "x.md", informat := some Format.markdown,
                      outformat := some Format.notebook, reverse := true } =
        Format.notebook ∧
    resolveOutformat { input_file := some "x.md", informat := some Format.markdown,
                       outformat := some Format.notebook, reverse := true } =
        Format.markdown :=
  C4_reverse_forces_formats
    { input_file := some "x.md", informat := some Format.markdown,
      outformat := some Format.notebook, reverse := true } rfl

/-- C5: a conversion on which no step fails performs exactly the steps
knit (iff requested), one read by the resolved input format, run (iff
requested), one write by the resolved output format, in that order; the
expected sequence repeats no step; and on every environment the steps
performed are an initial segment of that sequence, so no step ever runs out
of order or more than once. -/
theorem C5_pipeline_sequencing (a : Args) (w : World)
    (hEx : a.examples = false)
    (hTty : (a.input_file.isNone && w.stdinIsAtty) = false)
    (hKf : w.knitFails = false) (hRf : w.readFails = false)
    (hAv : w.runipyAvailable = true) (hRunF : w.runFails = false) :
    pipelineSteps a w = expectedSteps a ∧
    (expectedSteps a).Nodup ∧
    ∀ (b : Args) (v : World), ∃ t, expectedSteps b = pipelineSteps b v ++ t :=
  ⟨steps_success a w hEx hTty hKf hRf hAv hRunF, expected_nodup a,
   fun b v => steps_initial_segment b v⟩

/-- C5 witness: a knit-and-run invocation on `input.Rmd` performs exactly
knit, read markdown, run, write notebook. -/
theorem C5_witness :
    pipelineSteps { input_file := some "input.Rmd", knit := some "eval=FALSE",
                    run := true } {} =
      expectedSteps { input_file := some "input.Rmd", knit := some "eval=FALSE",
                      run := true } :=
  (C5_pipeline_sequencing
    { input_file := some "input.Rmd", knit := some "eval=FALSE", run := true }
    {} rfl rfl rfl rfl rfl rfl).1

/-- C6: when `--run` is requested and runipy is not importable, the process
fails, but with the Python 2 `TypeError` for raising a `str` — the
install-hint string never reaches the caller; without `--run` the absence of
runipy causes no error. -/
theorem C6_run_missing_runipy :
    cliOutcome { input_file := some "input.md", run := true }
        { runipyAvailable := false } =
      Outcome.errorExit PyError.typeErrorStringException ∧
    Event.raiseTypeError ∈
      cliEvents { input_file := some "input.md", run := true }
        { runipyAvailable := false } ∧
    cliOutcome { input_file := some "input.md" } { runipyAvailable := false } =
      Outcome.exitOk := by
  decide

/-- C7 counterexample: a successful knit conversion opens the input file but
never closes it — the with-block closes only the knit replacement stream and
the output. -/
theorem C7_counterexample :
    Event.openHandle Handle.inputH ∈
      cliEvents { input_file := some "input.Rmd", knit := some "eval=FALSE" } {} ∧
    Event.closeHandle Handle.inputH ∉
      cliEvents { input_file := some "input.Rmd", knit := some "eval=FALSE" } {} ∧
    cliOutcome { input_file := some "input.Rmd", knit := some "eval=FALSE" } {} =
      Outcome.exitOk := by
  decide

/-- C7 amended: the two streams entering the with-block — the current input
stream (the knit output when knitting ran, else the acquired input handle)
and the output handle — are closed on every exit path of the read/run/write
phase, including failures; the originally acquired input handle is not closed
when knit replaces it, and a knit failure closes nothing. -/
theorem C7_with_block_handles_closed (a : Args) (w : World)
    (hEx : a.examples = false)
    (hTty : (a.input_file.isNone && w.stdinIsAtty) = false)
    (hKf : knitTruthy a = true → w.knitFails = false) :
    Event.closeHandle (if knitTruthy a then Handle.knitH else Handle.inputH) ∈
      cliEvents a w ∧
    Event.closeHandle Handle.outputH ∈ cliEvents a w := by
  cases hk : knitTruthy a
  · cases hrf : w.readFails <;> cases hrun : a.run <;> cases hav : w.runipyAvailable <;>
      cases hrunf : w.runFails <;> cases hwf : w.writeFails <;>
        simp [cliEvents, cli, withBlock, runStepResult, writePhase,
              hEx, hTty, hk, hrf, hrun, hav, hrunf, hwf]
  · have hkf := hKf hk
    cases hrf : w.readFails <;> cases hrun : a.run <;> cases hav : w.runipyAvailable <;>
      cases hrunf : w.runFails <;> cases hwf : w.writeFails <;>
        simp [cliEvents, cli, withBlock, runStepResult, writePhase,
              hEx, hTty, hk, hkf, hrf, hrun, hav, hrunf, hwf]

/-- C7 witness: a knit invocation closes the knit stream and the output on
its normal exit. -/
theorem C7_witness :
    Event.closeHandle
        (if knitTruthy { input_file := some "in.Rmd", knit := some "eval=FALSE" }
         then Handle.knitH else Handle.inputH) ∈
      cliEvents { input_file := some "in.Rmd", knit := some "eval=FALSE" } {} ∧
    Event.closeHandle Handle.outputH ∈
      cliEvents { input_file := some "in.Rmd", knit := some "eval=FALSE" } {} :=
  C7_with_block_handles_closed
    { input_file := some "in.Rmd", knit := some "eval=FALSE" } {} rfl rfl fun _ => rfl

/-- C8 counterexample: `--examples` together with a named input file prints
the examples and exits 0, but the input file has already been opened by
argument parsing. -/
theorem C8_counterexample :
    cliOutcome { input_file := some "input.md", examples := true } {} =
      Outcome.exitOk ∧
    Event.printExamples ∈
      cliEvents { input_file := some "input.md", examples := true } {} ∧
    Event.openHandle Handle.inputH ∈
      cliEvents { input_file := some "input.md", examples := true } {} := by
  decide

/-- C8 amended: `--examples` prints the example text and exits 0 with no
conversion step performed (files named on the command line are still opened
by argument parsing); with no input file and an interactive stdin the program
prints help and exits 0 with no conversion step performed. -/
theorem C8_early_exits (a b : Args) (w v : World)
    (ha : a.examples = true)
    (hb : b.examples = false) (hbi : b.input_file = none) (hv : v.stdinIsAtty = true) :
    (cliOutcome a w = Outcome.exitOk ∧ Event.printExamples ∈ cliEvents a w ∧
      pipelineSteps a w = []) ∧
    (cliOutcome b v = Outcome.exitOk ∧ Event.printHelp ∈ cliEvents b v ∧
      pipelineSteps b v = []) := by
  constructor
  · cases hin : a.input_file <;> cases hout : a.output <;>
      simp [cliOutcome, cliEvents, cli, pipelineSteps, ha, hin, hout,
            isPipelineStep, List.filter_append]
  · cases hout : b.output <;>
      simp [cliOutcome, cliEvents, cli, pipelineSteps, hb, hbi, hv, hout,
            isPipelineStep, List.filter_append]

/-- C8 witness: `--examples` alone, and an interactive no-input invocation,
both exit 0 without conversion steps. -/
theorem C8_witness :
    (cliOutcome { examples := true } {} = Outcome.exitOk ∧
      Event.printExamples ∈ cliEvents { examples := true } {} ∧
      pipelineSteps { examples := true } {} = []) ∧
    (cliOutcome {} { stdinIsAtty := true } = Outcome.exitOk ∧
      Event.printHelp ∈ cliEvents {} { stdinIsAtty := true } ∧
      pipelineSteps {} { stdinIsAtty := true } = []) :=
  C8_early_exits { examples := true } {} {} { stdinIsAtty := true } rfl rfl rfl rfl

/-- C9: with `--rmagic`, the literal `%load_ext rmagic` is appended at the
end of the precode list before the reader table is built, so the markdown
reader receives the same precode string as if the user had passed it as a
final `--precode` argument. -/
theorem C9_rmagic_appends_precode (a : Args) (h : a.rmagic = true) :
    finalPrecode a = a.precode ++ ["%load_ext rmagic"] ∧
    readerPrecode a =
      readerPrecode
        { a with rmagic := false, precode := a.precode ++ ["%load_ext rmagic"] } := by
  simp [finalPrecode, readerPrecode, h]

/-- C9 witness: `--rmagic` with one precode string. -/
theorem C9_witness :
    finalPrecode { precode := ["import os"], rmagic := true } =
      ["import os"] ++ ["%load_ext rmagic"] ∧
    readerPrecode { precode := ["import os"], rmagic := true } =
      readerPrecode
        { ({ precode := ["import os"], rmagic := true } : Args) with
            rmagic := false, precode := ["import os"] ++ ["%load_ext rmagic"] } :=
  C9_rmagic_appends_precode { precode := ["import os"], rmagic := true } rfl

/-- C10: the `--precode` strings are joined with single newlines, in command
line order, into the one string the markdown reader receives as its precode
option; with no precode the reader receives the empty string. -/
theorem C10_precode_joined (a : Args) (p : String) (ps : List String)
    (h : a.rmagic = false) :
    readerPrecode { a with precode := [] } = "" ∧
    readerPrecode { a with precode := p :: ps } =
      ps.foldl (fun acc q => acc ++ "\n" ++ q) p := by
  constructor
  · simp [readerPrecode, finalPrecode, h, pyJoin]
  · simp only [readerPrecode, finalPrecode, h, if_neg Bool.false_ne_true]
    exact pyJoin_foldl "\n" p ps

/-- C10 witness: two precode strings are joined with one newline between
them, in order. -/
theorem C10_witness :
    readerPrecode { ({} : Args) with precode := [] } = "" ∧
    readerPrecode { ({} : Args) with precode := "import numpy" :: ["x = 1"] } =
      (["x = 1"] : List String).foldl (fun acc q => acc ++ "\n" ++ q) "import numpy" :=
  C10_precode_joined {} "import numpy" ["x = 1"] rfl

end Notedown
